import Mathlib

/-!
Shallow embedding of the credit-ledger core of the WhatsApp reseller
backend: credit distribution (services/credit_distribution_service.py),
message dispatch and billing (services/message_service.py), the usage
ledger with refunds (models/message_usage_log.py together with
services/message_usage_log_service.py), and the read-side analytics
percentages (models/reseller_analytics.py).

Python integers are modelled as Int, currency amounts (SQL Numeric) as
Rat, timestamps (datetime.utcnow()) as an explicit Nat argument supplied
by the environment, SQLAlchemy tables as maps from primary key to row,
and a raised ValueError (or a pydantic schema rejection) as
Except.error.  An operation that raises before any commit leaves the
store unchanged; the run* wrappers make that explicit.
-/

namespace WA

/-- Row of the users table (models/user.py): role discriminator, phone,
optional parent reseller, the reseller wallet (total/available/used)
and the business-owner wallet (allocated/used/remaining). -/
structure User where
  role : String
  phone : String
  parent_reseller_id : Option String
  total_credits : Int
  available_credits : Int
  used_credits : Int
  credits_allocated : Int
  credits_used : Int
  credits_remaining : Int
deriving Repr, DecidableEq

/-- The users table, keyed by the primary key user_id. -/
def Users : Type := String → Option User

/-- Write back one row of the users table (the ORM mutation of a row
fetched by primary key). -/
def updateUser (us : Users) (uid : String) (u : User) : Users :=
  fun x => if x = uid then some u else us x

/-- Query db.query(User).filter(User.user_id == uid, User.role == role).first():
primary-key lookup further filtered on the role column. -/
def getUserWithRole (us : Users) (uid : String) (role : String) : Option User :=
  match us uid with
  | some u => if u.role = role then some u else none
  | none => none

/-- Query for the destination of a distribution: user_id == uid,
role == business_owner, parent_reseller_id == reseller_id
(credit_distribution_service.py lines 26-30). -/
def getBusinessOwnerOf (us : Users) (uid : String) (reseller_id : String) : Option User :=
  match us uid with
  | some u =>
      if u.role = "business_owner" ∧ u.parent_reseller_id = some reseller_id then some u
      else none
  | none => none

/-- Row of the credit_distributions table (models/credit_distribution.py):
the immutable transfer record. -/
structure CreditDistribution where
  from_reseller_id : String
  to_business_user_id : String
  credits_shared : Int
deriving Repr, DecidableEq

/-- Request schema CreditDistributionCreate (schemas/credit_distribution.py). -/
structure CreditDistributionCreate where
  from_reseller_id : String
  to_business_user_id : String
  credits_shared : Int
deriving Repr, DecidableEq

/-- The state touched by the distribution service: the users table and
the credit_distributions table. -/
structure Ledger where
  users : Users
  distributions : List CreditDistribution

/-- Whether an Except-valued operation completed without raising. -/
def succeeds {α : Type} (e : Except String α) : Bool :=
  match e with
  | Except.ok _ => true
  | Except.error _ => false

/-- CreditDistributionService.create_credit_distribution
(services/credit_distribution_service.py lines 12-54): validate the
reseller, its balance, and the business owner, then move the credits
and insert the record; every raise happens before any mutation. -/
def create_credit_distribution (db : Ledger) (dd : CreditDistributionCreate) :
    Except String Ledger :=
  match getUserWithRole db.users dd.from_reseller_id "reseller" with
  | none => Except.error "Reseller not found"
  | some reseller =>
      if reseller.available_credits < dd.credits_shared then
        Except.error "Insufficient credits available"
      else
        match getBusinessOwnerOf db.users dd.to_business_user_id dd.from_reseller_id with
        | none => Except.error "Business owner not found or does not belong to this reseller"
        | some business_owner =>
            let reseller2 : User :=
              { reseller with
                  available_credits := reseller.available_credits - dd.credits_shared,
                  used_credits := reseller.used_credits + dd.credits_shared }
            let business_owner2 : User :=
              { business_owner with
                  credits_allocated := business_owner.credits_allocated + dd.credits_shared,
                  credits_remaining := business_owner.credits_remaining + dd.credits_shared }
            Except.ok
              { users :=
                  updateUser (updateUser db.users dd.from_reseller_id reseller2)
                    dd.to_business_user_id business_owner2,
                distributions := db.distributions ++
                  [{ from_reseller_id := dd.from_reseller_id,
                     to_business_user_id := dd.to_business_user_id,
                     credits_shared := dd.credits_shared }] }

/-- Entry point distribute(sourceId, destId, amount): the pydantic
schema first rejects credits_shared unless it is greater than 0
(schemas/credit_distribution.py line 8, Field gt=0), then the service
runs. -/
def distribute (db : Ledger) (src : String) (dst : String) (amount : Int) :
    Except String Ledger :=
  if amount ≤ 0 then Except.error "credits_shared must be greater than 0"
  else create_credit_distribution db
    { from_reseller_id := src, to_business_user_id := dst, credits_shared := amount }

/-- Observable store after a distribute call: a raise before commit
leaves the ledger as it was. -/
def runDistribute (db : Ledger) (src : String) (dst : String) (amount : Int) : Ledger :=
  match distribute db src dst amount with
  | Except.ok db2 => db2
  | Except.error _ => db

/-- The available_credits column of a user row, 0 when the row is absent. -/
def availOf (us : Users) (uid : String) : Int :=
  match us uid with
  | some u => u.available_credits
  | none => 0

/-- The credits_remaining column of a user row, 0 when the row is absent. -/
def remainingOf (us : Users) (uid : String) : Int :=
  match us uid with
  | some u => u.credits_remaining
  | none => 0

theorem getUserWithRole_some {us : Users} {uid role : String} {u : User}
    (h : getUserWithRole us uid role = some u) : us uid = some u ∧ u.role = role := by
  unfold getUserWithRole at h
  split at h
  case h_1 v hv =>
    split at h
    case isTrue hr =>
      cases h
      exact ⟨hv, hr⟩
    case isFalse hr => simp at h
  case h_2 hv => simp at h

theorem getBusinessOwnerOf_some {us : Users} {uid rid : String} {u : User}
    (h : getBusinessOwnerOf us uid rid = some u) :
    us uid = some u ∧ u.role = "business_owner" ∧ u.parent_reseller_id = some rid := by
  unfold getBusinessOwnerOf at h
  split at h
  case h_1 v hv =>
    split at h
    case isTrue hr =>
      cases h
      exact ⟨hv, hr.1, hr.2⟩
    case isFalse hr => simp at h
  case h_2 hv => simp at h

/-- The UsageStatus enum (models/message_usage_log.py). -/
inductive UsageStatus where
  | success
  | failed
  | pending
  | refunded
  | disputed
deriving Repr, DecidableEq

/-- Row of the message_usage_logs table (models/message_usage_log.py),
restricted to the columns the ledger logic reads or writes. -/
structure MessageUsageLog where
  user_id : String
  usage_type : String
  credits_deducted : Int
  credits_refunded : Int
  net_credits : Int
  balance_before : Int
  balance_after : Int
  cost_per_credit : Rat
  total_cost : Rat
  message_type : Option String
  recipient_count : Int
  delivery_status : Option String
  status : UsageStatus
  error_code : Option String
  error_message : Option String
  refund_reason : Option String
  refund_timestamp : Option Nat
  refund_processed_by : Option String
  updated_at : Nat
  processed_at : Option Nat
deriving Repr, DecidableEq

/-- MessageUsageLog.is_refunded: credits_refunded > 0. -/
def MessageUsageLog.is_refunded (l : MessageUsageLog) : Bool :=
  l.credits_refunded > 0

/-- MessageUsageLog.can_be_refunded (lines 101-108): status success,
credits_deducted > 0, credits_refunded == 0, and not is_refunded. -/
def MessageUsageLog.can_be_refunded (l : MessageUsageLog) : Bool :=
  decide (l.status = UsageStatus.success) &&
  decide (l.credits_deducted > 0) &&
  decide (l.credits_refunded = 0) &&
  !l.is_refunded

/-- MessageUsageLog.refund_credits (lines 110-124): raise unless
can_be_refunded, raise when the amount exceeds the deduction, otherwise
record the refund and flip the status; now stands for datetime.utcnow(). -/
def MessageUsageLog.refund_credits (l : MessageUsageLog) (refund_amount : Int)
    (reason : String) (processed_by : Option String) (now : Nat) :
    Except String MessageUsageLog :=
  if !l.can_be_refunded then
    Except.error "Cannot refund credits for this usage"
  else if refund_amount > l.credits_deducted then
    Except.error "Refund amount cannot exceed deducted credits"
  else
    Except.ok
      { l with
          credits_refunded := refund_amount,
          net_credits := l.credits_deducted - refund_amount,
          refund_reason := some reason,
          refund_timestamp := some now,
          refund_processed_by := processed_by,
          status := UsageStatus.refunded,
          updated_at := now }

/-- MessageUsageLog.mark_failed (lines 126-131): unconditionally set
status failed and overwrite the error fields. -/
def MessageUsageLog.mark_failed (l : MessageUsageLog) (error_code : Option String)
    (error_message : Option String) (now : Nat) : MessageUsageLog :=
  { l with
      status := UsageStatus.failed,
      error_code := error_code,
      error_message := error_message,
      updated_at := now }

/-- Observable entry after refund_credits: a raise leaves the row as it
was (both raises happen before any field is assigned). -/
def runRefundCredits (l : MessageUsageLog) (refund_amount : Int) (reason : String)
    (processed_by : Option String) (now : Nat) : MessageUsageLog :=
  match l.refund_credits refund_amount reason processed_by now with
  | Except.ok l2 => l2
  | Except.error _ => l

/-- MessageUsageLog.create_usage_log (lines 153-195): fresh entry with
status success (the column default), credits_refunded 0 (default),
net_credits = credits_deducted and total_cost = credits_deducted *
cost_per_credit. -/
def MessageUsageLog.create_usage_log (user_id : String) (usage_type : String)
    (credits_deducted : Int) (balance_before : Int) (balance_after : Int)
    (cost_per_credit : Rat) (message_type : Option String) (recipient_count : Int)
    (now : Nat) : MessageUsageLog :=
  { user_id := user_id,
    usage_type := usage_type,
    credits_deducted := credits_deducted,
    credits_refunded := 0,
    net_credits := credits_deducted,
    balance_before := balance_before,
    balance_after := balance_after,
    cost_per_credit := cost_per_credit,
    total_cost := (credits_deducted : Rat) * cost_per_credit,
    message_type := message_type,
    recipient_count := recipient_count,
    delivery_status := none,
    status := UsageStatus.success,
    error_code := none,
    error_message := none,
    refund_reason := none,
    refund_timestamp := none,
    refund_processed_by := none,
    updated_at := now,
    processed_at := some now }

/-- MessageUsageLogService.create_usage_log (the recordUsage operation,
services/message_usage_log_service.py lines 27-93): computes
balance_after = balance_before - credits_deducted with the default
cost_per_credit of 0.01 and inserts the fresh entry. -/
def recordUsage (user_id : String) (usage_type : String) (credits_deducted : Int)
    (balance_before : Int) (message_type : Option String) (recipient_count : Int)
    (now : Nat) : MessageUsageLog :=
  MessageUsageLog.create_usage_log user_id usage_type credits_deducted
    balance_before (balance_before - credits_deducted) (1 / 100 : Rat)
    message_type recipient_count now

/-- The message_usage_logs table keyed by usage_id. -/
def UsageLogs : Type := String → Option MessageUsageLog

/-- Write back one usage-log row. -/
def updateLog (ls : UsageLogs) (uid : String) (l : MessageUsageLog) : UsageLogs :=
  fun x => if x = uid then some l else ls x

/-- MessageUsageLogService.refund_usage_log (lines 162-188): look the
entry up by usage_id and delegate to refund_credits; a raise commits
nothing. -/
def refund_usage_log (ls : UsageLogs) (usage_id : String) (refund_amount : Int)
    (reason : String) (processed_by : Option String) (now : Nat) :
    Except String UsageLogs :=
  match ls usage_id with
  | none => Except.error "Usage log not found"
  | some l =>
      match l.refund_credits refund_amount reason processed_by now with
      | Except.ok l2 => Except.ok (updateLog ls usage_id l2)
      | Except.error e => Except.error e

/-- Entry point refund(usageId, refundAmount, reason): the pydantic
schema UsageLogRefundRequest (schemas/message_usage_log.py lines
112-116) first rejects refund_amount unless greater than 0 and
refund_reason outside length 1..500, then the service runs. -/
def refund (ls : UsageLogs) (usage_id : String) (refund_amount : Int)
    (reason : String) (processed_by : Option String) (now : Nat) :
    Except String UsageLogs :=
  if refund_amount ≤ 0 then Except.error "refund_amount must be greater than 0"
  else if reason.length < 1 then Except.error "refund_reason too short"
  else if 500 < reason.length then Except.error "refund_reason too long"
  else refund_usage_log ls usage_id refund_amount reason processed_by now

/-- Observable table after a refund call: a raise commits nothing. -/
def runRefund (ls : UsageLogs) (usage_id : String) (refund_amount : Int)
    (reason : String) (processed_by : Option String) (now : Nat) : UsageLogs :=
  match refund ls usage_id refund_amount reason processed_by now with
  | Except.ok ls2 => ls2
  | Except.error _ => ls

/-- Update schema MessageUsageLogUpdate (schemas/message_usage_log.py
lines 42-47): the only fields the generic update path may set. -/
structure MessageUsageLogUpdate where
  status : Option UsageStatus
  error_code : Option String
  error_message : Option String
  delivery_status : Option String
  processed_at : Option Nat
deriving Repr, DecidableEq

/-- Field loop of MessageUsageLogService.update_usage_log (lines
147-160): setattr for each field present in the request
(dict(exclude_unset=True)), then stamp updated_at. -/
def update_usage_log_fields (l : MessageUsageLog) (u : MessageUsageLogUpdate)
    (now : Nat) : MessageUsageLog :=
  { l with
      status := u.status.getD l.status,
      error_code := match u.error_code with
        | some v => some v
        | none => l.error_code,
      error_message := match u.error_message with
        | some v => some v
        | none => l.error_message,
      delivery_status := match u.delivery_status with
        | some v => some v
        | none => l.delivery_status,
      processed_at := match u.processed_at with
        | some v => some v
        | none => l.processed_at,
      updated_at := now }

/-- The ledger invariant of a usage entry: net_credits equals
credits_deducted minus credits_refunded. -/
def net_invariant (l : MessageUsageLog) : Prop :=
  l.net_credits = l.credits_deducted - l.credits_refunded

instance (l : MessageUsageLog) : Decidable (net_invariant l) := by
  unfold net_invariant
  infer_instance

/-- Row of the messages table (models/message.py), restricted to the
columns the dispatch and billing logic touches; status is the plain
string column of the source model. -/
structure Message where
  user_id : String
  channel : String
  mode : String
  sender_number : String
  receiver_number : String
  message_type : String
  template_name : Option String
  message_body : String
  status : String
  credits_used : Int
  sent_at : Option Nat
  error_message : Option String
  external_message_id : Option String
  webhook_response_success : Option Bool
  retry_count : Int
deriving Repr, DecidableEq

/-- Response dict of the outbound channel call: success flag, optional
provider message id, optional error text (spec section 6). -/
structure SendResponse where
  success : Bool
  message_id : Option String
  error : Option String
deriving Repr, DecidableEq

/-- Outcome of the opaque outbound send collaborator as observed by
_send_message: either a response dict or a raised exception with its
text. -/
def SendOutcome : Type := Except String SendResponse

/-- The outbound send did not succeed: an explicit failure response or
a raised exception. -/
def sendFailed (o : SendOutcome) : Prop :=
  match o with
  | Except.ok r => r.success = false
  | Except.error _ => True

/-- Error text _send_message records on a failed send:
response.get("error", "Unknown error") for an explicit failure,
str(e) for an exception. -/
def failText (o : SendOutcome) : String :=
  match o with
  | Except.ok r => r.error.getD "Unknown error"
  | Except.error e => e

/-- MessageService._send_message (services/message_service.py lines
188-214): on success set status sent with the provider id, on explicit
failure or exception set status failed with the error text; stamp
sent_at either way and commit. -/
def sendMessageStep (m : Message) (outcome : SendOutcome) (now : Nat) : Message :=
  match outcome with
  | Except.ok r =>
      if r.success then
        { m with
            status := "sent",
            external_message_id := r.message_id,
            webhook_response_success := some r.success,
            sent_at := some now }
      else
        { m with
            status := "failed",
            error_message := some (r.error.getD "Unknown error"),
            sent_at := some now }
  | Except.error e =>
      { m with
          status := "failed",
          error_message := some e,
          sent_at := some now }

/-- Validated MessageCreate schema (schemas/message.py lines 29-45),
enum values carried as their strings. -/
structure MessageCreate where
  user_id : String
  channel : String
  mode : String
  sender_number : String
  receiver_number : String
  message_type : String
  template_name : Option String
  message_body : String
  credits_used : Int
deriving Repr, DecidableEq

/-- Balance check and debit block of MessageService.create_message
(lines 21-32): for a business owner check and debit
credits_remaining/credits_used, for a reseller check and debit
available_credits/used_credits, for every other role do nothing. -/
def debit_for_message (user : User) (credits_used : Int) : Except String User :=
  if user.role = "business_owner" then
    if user.credits_remaining < credits_used then
      Except.error "Insufficient credits"
    else
      Except.ok
        { user with
            credits_used := user.credits_used + credits_used,
            credits_remaining := user.credits_remaining - credits_used }
  else if user.role = "reseller" then
    if user.available_credits < credits_used then
      Except.error "Insufficient credits"
    else
      Except.ok
        { user with
            used_credits := user.used_credits + credits_used,
            available_credits := user.available_credits - credits_used }
  else Except.ok user

/-- The Message row create_message inserts (lines 35-46): the request
fields with status pending. -/
def pendingMessage (d : MessageCreate) : Message :=
  { user_id := d.user_id,
    channel := d.channel,
    mode := d.mode,
    sender_number := d.sender_number,
    receiver_number := d.receiver_number,
    message_type := d.message_type,
    template_name := d.template_name,
    message_body := d.message_body,
    status := "pending",
    credits_used := d.credits_used,
    sent_at := none,
    error_message := none,
    external_message_id := none,
    webhook_response_success := none,
    retry_count := 0 }

/-- MessageService.create_message (lines 15-55): look the user up,
check and debit the wallet for the business_owner and reseller roles
only, insert the message in pending state, commit, then run
_send_message (whose exceptions are caught, so the call returns the
message in its final state). -/
def create_message (us : Users) (d : MessageCreate) (outcome : SendOutcome)
    (now : Nat) : Except String (Users × Message) :=
  match us d.user_id with
  | none => Except.error "User not found"
  | some user =>
      match debit_for_message user d.credits_used with
      | Except.error e => Except.error e
      | Except.ok user2 =>
          Except.ok (updateUser us d.user_id user2,
            sendMessageStep (pendingMessage d) outcome now)

/-- Users table after a create_message call (a raise commits nothing). -/
def msgUsersAfter (us : Users) (d : MessageCreate) (outcome : SendOutcome)
    (now : Nat) : Users :=
  match create_message us d outcome now with
  | Except.ok (us2, _) => us2
  | Except.error _ => us

/-- The Message row a create_message call inserted, none when it raised. -/
def msgResult (us : Users) (d : MessageCreate) (outcome : SendOutcome)
    (now : Nat) : Option Message :=
  match create_message us d outcome now with
  | Except.ok (_, m) => some m
  | Except.error _ => none

/-- Request schema MessageSendRequest fields used by the single-send
entry point. -/
structure MessageSendRequest where
  receiver_number : String
  message_type : String
  template_name : Option String
  message_body : String
  mode : String
deriving Repr, DecidableEq

/-- MessageService.send_message (lines 57-74): look the user up and
call create_message with channel whatsapp, the user's phone as sender,
and credits_used fixed to 1. -/
def send_message (us : Users) (uid : String) (req : MessageSendRequest)
    (outcome : SendOutcome) (now : Nat) : Except String (Users × Message) :=
  match us uid with
  | none => Except.error "User not found"
  | some user =>
      create_message us
        { user_id := uid,
          channel := "whatsapp",
          mode := req.mode,
          sender_number := user.phone,
          receiver_number := req.receiver_number,
          message_type := req.message_type,
          template_name := req.template_name,
          message_body := req.message_body,
          credits_used := 1 }
        outcome now

/-- Users table after a send_message call. -/
def sendUsersAfter (us : Users) (uid : String) (req : MessageSendRequest)
    (outcome : SendOutcome) (now : Nat) : Users :=
  match send_message us uid req outcome now with
  | Except.ok (us2, _) => us2
  | Except.error _ => us

/-- The Message row a send_message call produced, none when it raised. -/
def sendResult (us : Users) (uid : String) (req : MessageSendRequest)
    (outcome : SendOutcome) (now : Nat) : Option Message :=
  match send_message us uid req outcome now with
  | Except.ok (_, m) => some m
  | Except.error _ => none

/-- Credit columns of a ResellerAnalytics row
(models/reseller_analytics.py lines 15-47) used by the percentage
computations. -/
structure ResellerAnalytics where
  total_credits_purchased : Int
  total_credits_distributed : Int
  total_credits_used : Int
  remaining_credits : Int
  total_messages_sent : Int
  total_messages_delivered : Int
  total_messages_failed : Int
deriving Repr, DecidableEq

/-- ResellerAnalytics.calculate_credit_utilization (lines 83-87):
0.0 on a zero denominator, else used over distributed times 100. -/
def ResellerAnalytics.calculate_credit_utilization (a : ResellerAnalytics) : Rat :=
  if a.total_credits_distributed = 0 then 0
  else ((a.total_credits_used : Rat) / (a.total_credits_distributed : Rat)) * 100

/-- ResellerAnalytics.calculate_delivery_rate (lines 89-93): 0.0 on a
zero denominator, else delivered over sent times 100. -/
def ResellerAnalytics.calculate_delivery_rate (a : ResellerAnalytics) : Rat :=
  if a.total_messages_sent = 0 then 0
  else ((a.total_messages_delivered : Rat) / (a.total_messages_sent : Rat)) * 100

/-- Credit and message columns of a BusinessUserAnalytics row
(models/reseller_analytics.py lines 102-134). -/
structure BusinessUserAnalytics where
  credits_allocated : Int
  credits_used : Int
  credits_remaining : Int
  messages_sent : Int
  messages_delivered : Int
  messages_failed : Int
deriving Repr, DecidableEq

/-- BusinessUserAnalytics.calculate_credit_utilization (lines 168-172):
0.0 on a zero denominator, else used over allocated times 100. -/
def BusinessUserAnalytics.calculate_credit_utilization (a : BusinessUserAnalytics) : Rat :=
  if a.credits_allocated = 0 then 0
  else ((a.credits_used : Rat) / (a.credits_allocated : Rat)) * 100

/-- BusinessUserAnalytics.calculate_delivery_rate (lines 174-178):
0.0 on a zero denominator, else delivered over sent times 100. -/
def BusinessUserAnalytics.calculate_delivery_rate (a : BusinessUserAnalytics) : Rat :=
  if a.messages_sent = 0 then 0
  else ((a.messages_delivered : Rat) / (a.messages_sent : Rat)) * 100

/-! Concrete sample rows, used to evaluate the theorems below on
closed inputs. -/

/-- Sample reseller row with 100 available credits. -/
def rUser : User :=
  { role := "reseller", phone := "+15550000001", parent_reseller_id := none,
    total_credits := 100, available_credits := 100, used_credits := 0,
    credits_allocated := 0, credits_used := 0, credits_remaining := 0 }

/-- Sample business-owner row under reseller r with 50 remaining credits. -/
def bUser : User :=
  { role := "business_owner", phone := "+15550000002", parent_reseller_id := some "r",
    total_credits := 0, available_credits := 0, used_credits := 0,
    credits_allocated := 50, credits_used := 0, credits_remaining := 50 }

/-- Sample admin row with every wallet field zero. -/
def aUser : User :=
  { role := "admin", phone := "+15550000003", parent_reseller_id := none,
    total_credits := 0, available_credits := 0, used_credits := 0,
    credits_allocated := 0, credits_used := 0, credits_remaining := 0 }

/-- Sample users table with the three rows above. -/
def exUsers : Users :=
  fun s =>
    if s = "r" then some rUser
    else if s = "b" then some bUser
    else if s = "a" then some aUser
    else none

/-- Sample ledger over the sample users table with no distributions yet. -/
def exLedger : Ledger := { users := exUsers, distributions := [] }

/-! Generic inversion facts about the distribution service. -/

theorem distribute_ok_conditions {db : Ledger} {src dst : String} {amount : Int}
    {db2 : Ledger} (h : distribute db src dst amount = Except.ok db2) :
    0 < amount ∧
    ∃ r, getUserWithRole db.users src "reseller" = some r ∧
      ¬ r.available_credits < amount ∧
      ∃ b, getBusinessOwnerOf db.users dst src = some b := by
  unfold distribute at h
  split at h
  case isTrue h0 => exact absurd h (by simp)
  case isFalse h0 =>
    unfold create_credit_distribution at h
    split at h
    case h_1 => exact absurd h (by simp)
    case h_2 r hr =>
      split at h
      case isTrue => exact absurd h (by simp)
      case isFalse hlt =>
        split at h
        case h_1 => exact absurd h (by simp)
        case h_2 b hb =>
          exact ⟨not_le.mp h0, r, hr, hlt, b, hb⟩

theorem runDistribute_of_failure {db : Ledger} {src dst : String} {amount : Int}
    (h : succeeds (distribute db src dst amount) = false) :
    runDistribute db src dst amount = db := by
  unfold runDistribute
  cases hd : distribute db src dst amount with
  | ok db2 =>
      unfold succeeds at h
      rw [hd] at h
      simp at h
  | error e => rfl

/-- C1.  A valid distribution from a reseller to one of its business
owners succeeds, decrements source.available_credits by the amount,
increments source.used_credits by the amount, increments
dest.credits_allocated and dest.credits_remaining by the amount,
appends exactly one CreditDistribution record, and preserves the sum
source.available_credits + dest.credits_remaining. -/
theorem distribute_success_effects
    (db : Ledger) (src dst : String) (amount : Int) (r b : User)
    (hr : getUserWithRole db.users src "reseller" = some r)
    (hb : getBusinessOwnerOf db.users dst src = some b)
    (hpos : 0 < amount)
    (hsuff : amount ≤ r.available_credits) :
    succeeds (distribute db src dst amount) = true ∧
    (runDistribute db src dst amount).users src =
      some { r with available_credits := r.available_credits - amount,
                    used_credits := r.used_credits + amount } ∧
    (runDistribute db src dst amount).users dst =
      some { b with credits_allocated := b.credits_allocated + amount,
                    credits_remaining := b.credits_remaining + amount } ∧
    (runDistribute db src dst amount).distributions =
      db.distributions ++
        [{ from_reseller_id := src, to_business_user_id := dst,
           credits_shared := amount }] ∧
    availOf (runDistribute db src dst amount).users src +
      remainingOf (runDistribute db src dst amount).users dst =
      availOf db.users src + remainingOf db.users dst := by
  obtain ⟨husrc, hrrole⟩ := getUserWithRole_some hr
  obtain ⟨husdst, hbrole, hbpar⟩ := getBusinessOwnerOf_some hb
  have hne : dst ≠ src := by
    intro e
    rw [e] at husdst
    rw [husrc] at husdst
    cases husdst
    rw [hrrole] at hbrole
    exact absurd hbrole (by decide)
  have hd : distribute db src dst amount = Except.ok
      { users :=
          updateUser (updateUser db.users src
              { r with available_credits := r.available_credits - amount,
                       used_credits := r.used_credits + amount })
            dst
            { b with credits_allocated := b.credits_allocated + amount,
                     credits_remaining := b.credits_remaining + amount },
        distributions := db.distributions ++
          [{ from_reseller_id := src, to_business_user_id := dst,
             credits_shared := amount }] } := by
    unfold distribute create_credit_distribution
    rw [if_neg (not_le.mpr hpos)]
    simp only [hr, hb, if_neg (not_lt.mpr hsuff)]
  have hrun : runDistribute db src dst amount =
      { users :=
          updateUser (updateUser db.users src
              { r with available_credits := r.available_credits - amount,
                       used_credits := r.used_credits + amount })
            dst
            { b with credits_allocated := b.credits_allocated + amount,
                     credits_remaining := b.credits_remaining + amount },
        distributions := db.distributions ++
          [{ from_reseller_id := src, to_business_user_id := dst,
             credits_shared := amount }] } := by
    unfold runDistribute
    rw [hd]
  refine ⟨by unfold succeeds; rw [hd], ?_, ?_, ?_, ?_⟩
  · rw [hrun]
    unfold updateUser
    simp [hne.symm]
  · rw [hrun]
    unfold updateUser
    simp
  · rw [hrun]
  · rw [hrun]
    unfold availOf remainingOf updateUser
    simp [hne, Ne.symm hne, husrc, husdst]

/-- Witness for C1 on the sample ledger: distributing 60 credits from
reseller r to business owner b succeeds and conserves the tracked sum. -/
theorem distribute_success_effects_witness :
    getUserWithRole exLedger.users "r" "reseller" = some rUser ∧
    getBusinessOwnerOf exLedger.users "b" "r" = some bUser ∧
    succeeds (distribute exLedger "r" "b" 60) = true ∧
    availOf (runDistribute exLedger "r" "b" 60).users "r" +
      remainingOf (runDistribute exLedger "r" "b" 60).users "b" =
      availOf exLedger.users "r" + remainingOf exLedger.users "b" :=
  ⟨rfl, rfl,
    (distribute_success_effects exLedger "r" "b" 60 rUser bUser rfl rfl
      (by decide) (by decide)).1,
    (distribute_success_effects exLedger "r" "b" 60 rUser bUser rfl rfl
      (by decide) (by decide)).2.2.2.2⟩

/-- C2.  A distribution with a non-positive amount, a missing or
non-reseller source, an insufficient source balance, or a destination
that is not a business owner of the source, raises and mutates no
ledger state. -/
theorem distribute_invalid_is_rejected
    (db : Ledger) (src dst : String) (amount : Int)
    (h : amount ≤ 0 ∨
         getUserWithRole db.users src "reseller" = none ∨
         (∃ r, getUserWithRole db.users src "reseller" = some r ∧
            r.available_credits < amount) ∨
         getBusinessOwnerOf db.users dst src = none) :
    succeeds (distribute db src dst amount) = false ∧
    runDistribute db src dst amount = db := by
  have herr : succeeds (distribute db src dst amount) = false := by
    cases hd : distribute db src dst amount with
    | error e => rfl
    | ok db2 =>
        exfalso
        obtain ⟨hpos, r, hr, hnlt, b, hb⟩ := distribute_ok_conditions hd
        rcases h with h | h | ⟨r2, hr2, hlt2⟩ | h
        · omega
        · rw [h] at hr
          exact Option.noConfusion hr
        · rw [hr2] at hr
          cases hr
          exact hnlt hlt2
        · rw [h] at hb
          exact Option.noConfusion hb
  exact ⟨herr, runDistribute_of_failure herr⟩

/-- Witness for C2 on the sample ledger: distributing 150 credits from
a reseller holding 100 fails and leaves the ledger untouched. -/
theorem distribute_invalid_is_rejected_witness :
    succeeds (distribute exLedger "r" "b" 150) = false ∧
    runDistribute exLedger "r" "b" 150 = exLedger :=
  distribute_invalid_is_rejected exLedger "r" "b" 150
    (Or.inr (Or.inr (Or.inl ⟨rUser, rfl, by decide⟩)))

/-! Usage-ledger facts: refund characterization and invariants. -/

/-- Sample usage entry: 5 credits deducted, balance 10 before and 5
after, status success, nothing refunded yet. -/
def exLog : MessageUsageLog :=
  MessageUsageLog.create_usage_log "b" "message_send" 5 10 5 (1 / 100 : Rat) none 1 0

/-- Sample usage-log table holding the one entry above under key u. -/
def exLogs : UsageLogs := fun s => if s = "u" then some exLog else none

theorem can_be_refunded_iff (l : MessageUsageLog) :
    l.can_be_refunded = true ↔
      (l.status = UsageStatus.success ∧ 0 < l.credits_deducted ∧
        l.credits_refunded = 0) := by
  unfold MessageUsageLog.can_be_refunded MessageUsageLog.is_refunded
  simp only [Bool.and_eq_true, decide_eq_true_eq, Bool.not_eq_true',
    decide_eq_false_iff_not]
  constructor
  · rintro ⟨⟨⟨h1, h2⟩, h3⟩, _⟩
    exact ⟨h1, h2, h3⟩
  · rintro ⟨h1, h2, h3⟩
    refine ⟨⟨⟨h1, h2⟩, h3⟩, ?_⟩
    omega

theorem refund_credits_ok_iff (l : MessageUsageLog) (amt : Int) (reason : String)
    (pby : Option String) (now : Nat) :
    succeeds (l.refund_credits amt reason pby now) = true ↔
      (l.can_be_refunded = true ∧ amt ≤ l.credits_deducted) := by
  unfold MessageUsageLog.refund_credits
  by_cases hc : l.can_be_refunded = true
  · by_cases hgt : amt > l.credits_deducted
    · simp [hc, hgt, succeeds]
    · simp [hc, hgt, succeeds]
      omega
  · have hc2 : l.can_be_refunded = false := by
      revert hc
      cases l.can_be_refunded <;> simp
    simp [hc2, succeeds]

theorem refund_credits_ok_elim {l : MessageUsageLog} {amt : Int} {reason : String}
    {pby : Option String} {now : Nat} {l2 : MessageUsageLog}
    (h : l.refund_credits amt reason pby now = Except.ok l2) :
    l2 = { l with
            credits_refunded := amt,
            net_credits := l.credits_deducted - amt,
            refund_reason := some reason,
            refund_timestamp := some now,
            refund_processed_by := pby,
            status := UsageStatus.refunded,
            updated_at := now } := by
  unfold MessageUsageLog.refund_credits at h
  split at h
  case isTrue => exact absurd h (by simp)
  case isFalse =>
    split at h
    case isTrue => exact absurd h (by simp)
    case isFalse =>
      cases h
      rfl

theorem refund_fails_of_entry_failure {ls : UsageLogs} {uid : String}
    {l : MessageUsageLog} {amt : Int} {reason : String} {pby : Option String}
    {now : Nat} (hl : ls uid = some l)
    (hf : succeeds (l.refund_credits amt reason pby now) = false) :
    succeeds (refund ls uid amt reason pby now) = false := by
  unfold refund
  split
  case isTrue => rfl
  case isFalse =>
    split
    case isTrue => rfl
    case isFalse =>
      split
      case isTrue => rfl
      case isFalse =>
        unfold refund_usage_log
        rw [hl]
        show succeeds (match l.refund_credits amt reason pby now with
          | Except.ok l2 => Except.ok (updateLog ls uid l2)
          | Except.error e => Except.error e) = false
        cases hrc : l.refund_credits amt reason pby now with
        | ok l2 =>
            rw [hrc] at hf
            exact absurd hf (by simp [succeeds])
        | error e => rfl

theorem refund_fails_of_not_success {ls : UsageLogs} {uid : String}
    {l : MessageUsageLog} (hl : ls uid = some l)
    (hs : l.status ≠ UsageStatus.success) (amt : Int) (reason : String)
    (pby : Option String) (now : Nat) :
    succeeds (refund ls uid amt reason pby now) = false := by
  refine refund_fails_of_entry_failure hl ?_
  cases hrc : l.refund_credits amt reason pby now with
  | error e => rfl
  | ok l2 =>
      exfalso
      have hok : succeeds (l.refund_credits amt reason pby now) = true := by
        rw [hrc]
        rfl
      have := (refund_credits_ok_iff l amt reason pby now).mp hok
      rw [can_be_refunded_iff] at this
      exact hs this.1.1

theorem runRefund_of_failure {ls : UsageLogs} {uid : String} {amt : Int}
    {reason : String} {pby : Option String} {now : Nat}
    (h : succeeds (refund ls uid amt reason pby now) = false) :
    runRefund ls uid amt reason pby now = ls := by
  unfold runRefund
  cases hd : refund ls uid amt reason pby now with
  | ok ls2 =>
      unfold succeeds at h
      rw [hd] at h
      simp at h
  | error e => rfl

theorem runRefundCredits_of_failure {l : MessageUsageLog} {amt : Int}
    {reason : String} {pby : Option String} {now : Nat}
    (h : succeeds (l.refund_credits amt reason pby now) = false) :
    runRefundCredits l amt reason pby now = l := by
  unfold runRefundCredits
  cases hd : l.refund_credits amt reason pby now with
  | ok l2 =>
      unfold succeeds at h
      rw [hd] at h
      simp at h
  | error e => rfl

theorem refund_ok_elim {ls : UsageLogs} {uid : String} {amt : Int}
    {reason : String} {pby : Option String} {now : Nat} {ls2 : UsageLogs}
    (h : refund ls uid amt reason pby now = Except.ok ls2) :
    ∃ l, ls uid = some l ∧
      ls2 = updateLog ls uid
        { l with
            credits_refunded := amt,
            net_credits := l.credits_deducted - amt,
            refund_reason := some reason,
            refund_timestamp := some now,
            refund_processed_by := pby,
            status := UsageStatus.refunded,
            updated_at := now } := by
  unfold refund at h
  split at h
  case isTrue => exact absurd h (by simp)
  case isFalse =>
    split at h
    case isTrue => exact absurd h (by simp)
    case isFalse =>
      split at h
      case isTrue => exact absurd h (by simp)
      case isFalse =>
        unfold refund_usage_log at h
        cases hl : ls uid with
        | none =>
            rw [hl] at h
            exact absurd h (by simp)
        | some l =>
            rw [hl] at h
            have h2 : (match l.refund_credits amt reason pby now with
                | Except.ok l2 => Except.ok (updateLog ls uid l2)
                | Except.error e => Except.error e) = Except.ok ls2 := h
            cases hrc : l.refund_credits amt reason pby now with
            | error e =>
                rw [hrc] at h2
                exact absurd h2 (by simp)
            | ok l2 =>
                rw [hrc] at h2
                cases h2
                exact ⟨l, rfl, by rw [refund_credits_ok_elim hrc]⟩

/-- C3.  With the entry present and a schema-valid reason, the refund
entry point succeeds exactly when the entry has status success, has not
been refunded, and the amount is positive and at most the deduction;
after a successful refund the entry holds the refunded amount with
status refunded and any second refund of it fails. -/
theorem refund_succeeds_iff_preconditions
    (ls : UsageLogs) (uid : String) (l : MessageUsageLog) (amt : Int)
    (reason : String) (pby : Option String) (now : Nat)
    (hl : ls uid = some l) (hr1 : 1 ≤ reason.length) (hr2 : reason.length ≤ 500) :
    (succeeds (refund ls uid amt reason pby now) = true ↔
      (l.status = UsageStatus.success ∧ l.credits_refunded = 0 ∧
        amt ≤ l.credits_deducted ∧ 0 < amt)) ∧
    (∀ ls2, refund ls uid amt reason pby now = Except.ok ls2 →
      (ls2 uid).map MessageUsageLog.credits_refunded = some amt ∧
      (ls2 uid).map MessageUsageLog.status = some UsageStatus.refunded ∧
      ∀ amt2 reason2 pby2 now2,
        succeeds (refund ls2 uid amt2 reason2 pby2 now2) = false) := by
  constructor
  · by_cases h0 : amt ≤ 0
    · have hfail : succeeds (refund ls uid amt reason pby now) = false := by
        unfold refund
        rw [if_pos h0]
        rfl
      rw [hfail]
      constructor
      · intro hh
        exact absurd hh (by simp)
      · rintro ⟨_, _, _, h4⟩
        omega
    · have hlen1 : ¬ reason.length < 1 := by omega
      have hlen2 : ¬ 500 < reason.length := by omega
      have hred : refund ls uid amt reason pby now =
          match l.refund_credits amt reason pby now with
          | Except.ok l2 => Except.ok (updateLog ls uid l2)
          | Except.error e => Except.error e := by
        unfold refund refund_usage_log
        rw [if_neg h0, if_neg hlen1, if_neg hlen2, hl]
      rw [hred]
      have hs : succeeds (match l.refund_credits amt reason pby now with
          | Except.ok l2 => Except.ok (updateLog ls uid l2)
          | Except.error e => Except.error e) =
          succeeds (l.refund_credits amt reason pby now) := by
        cases l.refund_credits amt reason pby now <;> rfl
      rw [hs, refund_credits_ok_iff, can_be_refunded_iff]
      constructor
      · rintro ⟨⟨h1, h2, h3⟩, h4⟩
        exact ⟨h1, h3, h4, by omega⟩
      · rintro ⟨h1, h3, h4, h5⟩
        exact ⟨⟨h1, by omega, h3⟩, h4⟩
  · intro ls2 hok
    obtain ⟨l0, hl0, hup⟩ := refund_ok_elim hok
    have hl0eq : l0 = l := by
      rw [hl] at hl0
      cases hl0
      rfl
    subst hl0eq
    have hlook : ls2 uid = some
        { l0 with
            credits_refunded := amt,
            net_credits := l0.credits_deducted - amt,
            refund_reason := some reason,
            refund_timestamp := some now,
            refund_processed_by := pby,
            status := UsageStatus.refunded,
            updated_at := now } := by
      rw [hup]
      unfold updateLog
      simp
    refine ⟨by rw [hlook]; rfl, by rw [hlook]; rfl, ?_⟩
    intro amt2 reason2 pby2 now2
    exact refund_fails_of_not_success hlook (by simp) amt2 reason2 pby2 now2

/-- Witness for C3 on the sample table: refunding 3 of the 5 deducted
credits of a success entry succeeds. -/
theorem refund_succeeds_iff_preconditions_witness :
    succeeds (refund exLogs "u" 3 "test" none 5) = true :=
  ((refund_succeeds_iff_preconditions exLogs "u" exLog 3 "test" none 5 rfl
      (by decide) (by decide)).1).mpr (by decide)

/-- C4.  The invariant net_credits = credits_deducted - credits_refunded
holds for a freshly recorded usage entry and is preserved by
refund_credits, mark_failed, and the generic update path. -/
theorem net_invariant_preserved :
    (∀ user_id usage_type credits_deducted balance_before message_type
        recipient_count now,
      net_invariant (recordUsage user_id usage_type credits_deducted
        balance_before message_type recipient_count now)) ∧
    (∀ (l : MessageUsageLog) amt reason pby now l2,
      l.refund_credits amt reason pby now = Except.ok l2 → net_invariant l2) ∧
    (∀ (l : MessageUsageLog) ec em now,
      net_invariant l → net_invariant (l.mark_failed ec em now)) ∧
    (∀ (l : MessageUsageLog) (u : MessageUsageLogUpdate) now,
      net_invariant l → net_invariant (update_usage_log_fields l u now)) := by
  refine ⟨?_, ?_, ?_, ?_⟩
  · intro uid ut cd bb mt rc now
    show cd = cd - 0
    omega
  · intro l amt reason pby now l2 h
    rw [refund_credits_ok_elim h]
    unfold net_invariant
    rfl
  · intro l ec em now h
    exact h
  · intro l u now h
    exact h

/-- Witness for C4: the invariant holds for a concrete fresh entry and
is kept by marking it failed. -/
theorem net_invariant_preserved_witness :
    net_invariant (recordUsage "b" "message_send" 5 10 none 1 0) ∧
    net_invariant ((recordUsage "b" "message_send" 5 10 none 1 0).mark_failed
      (some "E7") (some "boom") 3) :=
  ⟨net_invariant_preserved.1 "b" "message_send" 5 10 none 1 0,
   net_invariant_preserved.2.2.1 (recordUsage "b" "message_send" 5 10 none 1 0)
     (some "E7") (some "boom") 3
     (net_invariant_preserved.1 "b" "message_send" 5 10 none 1 0)⟩

/-- C5.  A refund amount strictly greater than credits_deducted is
rejected both by the row method and by the service entry point, and the
entry and the table are left exactly as they were. -/
theorem refund_exceeding_deduction_rejected
    (ls : UsageLogs) (uid : String) (l : MessageUsageLog) (amt : Int)
    (reason : String) (pby : Option String) (now : Nat)
    (hl : ls uid = some l) (hgt : l.credits_deducted < amt) :
    succeeds (l.refund_credits amt reason pby now) = false ∧
    runRefundCredits l amt reason pby now = l ∧
    succeeds (refund ls uid amt reason pby now) = false ∧
    runRefund ls uid amt reason pby now = ls := by
  have h1 : succeeds (l.refund_credits amt reason pby now) = false := by
    cases hrc : l.refund_credits amt reason pby now with
    | error e => rfl
    | ok l2 =>
        exfalso
        have hok : succeeds (l.refund_credits amt reason pby now) = true := by
          rw [hrc]
          rfl
        have h2 := ((refund_credits_ok_iff l amt reason pby now).mp hok).2
        omega
  have h3 : succeeds (refund ls uid amt reason pby now) = false :=
    refund_fails_of_entry_failure hl h1
  exact ⟨h1, runRefundCredits_of_failure h1, h3, runRefund_of_failure h3⟩

/-- Witness for C5 on the sample entry: refunding 9 of 5 deducted
credits fails and changes nothing. -/
theorem refund_exceeding_deduction_rejected_witness :
    succeeds (MessageUsageLog.refund_credits exLog 9 "test" none 5) = false ∧
    runRefundCredits exLog 9 "test" none 5 = exLog ∧
    succeeds (refund exLogs "u" 9 "test" none 5) = false ∧
    runRefund exLogs "u" 9 "test" none 5 = exLogs :=
  refund_exceeding_deduction_rejected exLogs "u" exLog 9 "test" none 5 rfl
    (by decide)

/-- C7.  mark_failed is an overwrite: applying it twice with the same
error arguments yields exactly the state of applying it once. -/
theorem mark_failed_idempotent (l : MessageUsageLog) (ec em : Option String)
    (t1 t2 : Nat) :
    (l.mark_failed ec em t1).mark_failed ec em t2 = l.mark_failed ec em t2 :=
  rfl

/-! Message dispatch and billing facts. -/

theorem debit_business_owner {u : User} {c : Int}
    (hrole : u.role = "business_owner") (hbal : ¬ u.credits_remaining < c) :
    debit_for_message u c = Except.ok
      { u with credits_used := u.credits_used + c,
               credits_remaining := u.credits_remaining - c } := by
  unfold debit_for_message
  rw [if_pos hrole, if_neg hbal]

theorem debit_reseller {u : User} {c : Int}
    (hrole : u.role = "reseller") (hbal : ¬ u.available_credits < c) :
    debit_for_message u c = Except.ok
      { u with used_credits := u.used_credits + c,
               available_credits := u.available_credits - c } := by
  have hnb : ¬ u.role = "business_owner" := by
    rw [hrole]
    decide
  unfold debit_for_message
  rw [if_neg hnb, if_pos hrole, if_neg hbal]

theorem debit_other {u : User} (c : Int)
    (h1 : u.role ≠ "business_owner") (h2 : u.role ≠ "reseller") :
    debit_for_message u c = Except.ok u := by
  unfold debit_for_message
  rw [if_neg h1, if_neg h2]

theorem sendMessageStep_failed {o : SendOutcome} (m : Message) (now : Nat)
    (hf : sendFailed o) :
    sendMessageStep m o now =
      { m with status := "failed", error_message := some (failText o),
               sent_at := some now } := by
  unfold sendMessageStep failText
  cases o with
  | ok r =>
      unfold sendFailed at hf
      simp [hf]
  | error e => rfl

theorem sendMessageStep_user_id (m : Message) (o : SendOutcome) (now : Nat) :
    (sendMessageStep m o now).user_id = m.user_id := by
  unfold sendMessageStep
  cases o with
  | ok r => by_cases h : r.success = true <;> simp [h]
  | error e => rfl

theorem sendMessageStep_credits_used (m : Message) (o : SendOutcome) (now : Nat) :
    (sendMessageStep m o now).credits_used = m.credits_used := by
  unfold sendMessageStep
  cases o with
  | ok r => by_cases h : r.success = true <;> simp [h]
  | error e => rfl

theorem create_message_ok_elim {us : Users} {d : MessageCreate}
    {outcome : SendOutcome} {now : Nat} {p : Users × Message}
    (h : create_message us d outcome now = Except.ok p) :
    ∃ user user2, us d.user_id = some user ∧
      debit_for_message user d.credits_used = Except.ok user2 ∧
      p = (updateUser us d.user_id user2,
        sendMessageStep (pendingMessage d) outcome now) := by
  unfold create_message at h
  cases hus : us d.user_id with
  | none =>
      simp only [hus] at h
      exact absurd h (by simp)
  | some user =>
      simp only [hus] at h
      cases hd : debit_for_message user d.credits_used with
      | error e =>
          simp only [hd] at h
          exact absurd h (by simp)
      | ok user2 =>
          simp only [hd] at h
          cases h
          exact ⟨user, user2, rfl, hd, rfl⟩

theorem msgResult_credits_used {us : Users} {d : MessageCreate}
    {outcome : SendOutcome} {now : Nat} {m2 : Message}
    (h : msgResult us d outcome now = some m2) :
    m2.credits_used = d.credits_used := by
  unfold msgResult at h
  cases hc : create_message us d outcome now with
  | error e =>
      rw [hc] at h
      exact absurd h (by simp)
  | ok p =>
      rw [hc] at h
      obtain ⟨user, user2, _, _, hp⟩ := create_message_ok_elim hc
      have hm : m2 = p.2 := by
        cases h
        rfl
      rw [hm, hp]
      rw [sendMessageStep_credits_used]
      rfl

/-- Sample request to send one text message as business owner b. -/
def exMsgCreate : MessageCreate :=
  { user_id := "b", channel := "whatsapp", mode := "official",
    sender_number := "+15550000002", receiver_number := "+15550000009",
    message_type := "text", template_name := none, message_body := "hi",
    credits_used := 1 }

/-- Sample request to send one text message as admin a. -/
def exMsgCreateAdmin : MessageCreate :=
  { user_id := "a", channel := "whatsapp", mode := "official",
    sender_number := "+15550000003", receiver_number := "+15550000009",
    message_type := "text", template_name := none, message_body := "hi",
    credits_used := 1 }

/-- Sample outbound response reporting an explicit failure. -/
def exFailOutcome : SendOutcome :=
  Except.ok { success := false, message_id := none, error := some "number blocked" }

/-- Sample outbound response reporting success with a provider id. -/
def exOkOutcome : SendOutcome :=
  Except.ok { success := true, message_id := some "wa-official-0a1b2c", error := none }

/-- Sample single-send request body. -/
def exSendReq : MessageSendRequest :=
  { receiver_number := "+15550000009", message_type := "text",
    template_name := none, message_body := "hi", mode := "official" }

/-- C6.  When the balance check passes but the outbound send fails
(exception or explicit failure response), the message ends in status
failed with the error text recorded, and the wallet debit stays in
place for business owners and resellers alike. -/
theorem debit_not_rolled_back_on_send_failure
    (us : Users) (d : MessageCreate) (outcome : SendOutcome) (now : Nat)
    (u : User) (hu : us d.user_id = some u) (hfail : sendFailed outcome) :
    (u.role = "business_owner" → d.credits_used ≤ u.credits_remaining →
      (msgResult us d outcome now).map Message.status = some "failed" ∧
      (msgResult us d outcome now).bind Message.error_message =
        some (failText outcome) ∧
      msgUsersAfter us d outcome now d.user_id =
        some { u with credits_used := u.credits_used + d.credits_used,
                      credits_remaining := u.credits_remaining - d.credits_used }) ∧
    (u.role = "reseller" → d.credits_used ≤ u.available_credits →
      (msgResult us d outcome now).map Message.status = some "failed" ∧
      (msgResult us d outcome now).bind Message.error_message =
        some (failText outcome) ∧
      msgUsersAfter us d outcome now d.user_id =
        some { u with used_credits := u.used_credits + d.credits_used,
                      available_credits := u.available_credits - d.credits_used }) := by
  constructor
  · intro hrole hbal
    have hd := debit_business_owner hrole (not_lt.mpr hbal)
    have hcm : create_message us d outcome now = Except.ok
        (updateUser us d.user_id
          { u with credits_used := u.credits_used + d.credits_used,
                   credits_remaining := u.credits_remaining - d.credits_used },
         sendMessageStep (pendingMessage d) outcome now) := by
      unfold create_message
      simp only [hu, hd]
    rw [sendMessageStep_failed (pendingMessage d) now hfail] at hcm
    refine ⟨?_, ?_, ?_⟩
    · unfold msgResult
      rw [hcm]
      rfl
    · unfold msgResult
      rw [hcm]
      rfl
    · unfold msgUsersAfter
      rw [hcm]
      unfold updateUser
      simp
  · intro hrole hbal
    have hd := debit_reseller hrole (not_lt.mpr hbal)
    have hcm : create_message us d outcome now = Except.ok
        (updateUser us d.user_id
          { u with used_credits := u.used_credits + d.credits_used,
                   available_credits := u.available_credits - d.credits_used },
         sendMessageStep (pendingMessage d) outcome now) := by
      unfold create_message
      simp only [hu, hd]
    rw [sendMessageStep_failed (pendingMessage d) now hfail] at hcm
    refine ⟨?_, ?_, ?_⟩
    · unfold msgResult
      rw [hcm]
      rfl
    · unfold msgResult
      rw [hcm]
      rfl
    · unfold msgUsersAfter
      rw [hcm]
      unfold updateUser
      simp

/-- Witness for C6: business owner b with 50 remaining credits sends a
message whose channel reports failure; the message is failed with the
error text and the debit of 1 credit stays. -/
theorem debit_not_rolled_back_on_send_failure_witness :
    (msgResult exUsers exMsgCreate exFailOutcome 7).map Message.status =
      some "failed" ∧
    (msgResult exUsers exMsgCreate exFailOutcome 7).bind Message.error_message =
      some (failText exFailOutcome) ∧
    msgUsersAfter exUsers exMsgCreate exFailOutcome 7 "b" =
      some { bUser with credits_used := bUser.credits_used + 1,
                        credits_remaining := bUser.credits_remaining - 1 } :=
  (debit_not_rolled_back_on_send_failure exUsers exMsgCreate exFailOutcome 7
      bUser rfl rfl).1 rfl (by decide)

/-- C9.  For an existing account whose role is neither business_owner
nor reseller, create_message performs no balance check and no debit: it
always succeeds, the account row is untouched, and a Message row for
that account is still produced. -/
theorem other_roles_not_billed
    (us : Users) (d : MessageCreate) (outcome : SendOutcome) (now : Nat)
    (u : User) (hu : us d.user_id = some u)
    (h1 : u.role ≠ "business_owner") (h2 : u.role ≠ "reseller") :
    succeeds (create_message us d outcome now) = true ∧
    msgUsersAfter us d outcome now d.user_id = some u ∧
    (msgResult us d outcome now).map Message.user_id = some d.user_id ∧
    (msgResult us d outcome now).map Message.credits_used =
      some d.credits_used := by
  have hd := debit_other (u := u) d.credits_used h1 h2
  have hcm : create_message us d outcome now = Except.ok
      (updateUser us d.user_id u,
       sendMessageStep (pendingMessage d) outcome now) := by
    unfold create_message
    simp only [hu, hd]
  refine ⟨?_, ?_, ?_, ?_⟩
  · unfold succeeds
    rw [hcm]
  · unfold msgUsersAfter
    rw [hcm]
    unfold updateUser
    simp
  · unfold msgResult
    rw [hcm]
    simp [sendMessageStep_user_id, pendingMessage]
  · unfold msgResult
    rw [hcm]
    simp [sendMessageStep_credits_used, pendingMessage]

/-- Witness for C9: admin a with every wallet field zero sends a
message; no insufficient-credits failure and the row is unchanged. -/
theorem other_roles_not_billed_witness :
    succeeds (create_message exUsers exMsgCreateAdmin exOkOutcome 7) = true ∧
    msgUsersAfter exUsers exMsgCreateAdmin exOkOutcome 7 "a" = some aUser :=
  ⟨(other_roles_not_billed exUsers exMsgCreateAdmin exOkOutcome 7 aUser rfl
      (by decide) (by decide)).1,
   (other_roles_not_billed exUsers exMsgCreateAdmin exOkOutcome 7 aUser rfl
      (by decide) (by decide)).2.1⟩

/-- C10.  The single-send entry point always charges exactly 1 credit:
any Message it produces has credits_used = 1, and on a passed balance
check the wallet is debited by exactly 1 for business owners and
resellers. -/
theorem send_message_unit_cost
    (us : Users) (uid : String) (req : MessageSendRequest)
    (outcome : SendOutcome) (now : Nat) (u : User) (hu : us uid = some u) :
    (∀ m, sendResult us uid req outcome now = some m → m.credits_used = 1) ∧
    (u.role = "business_owner" → 1 ≤ u.credits_remaining →
      sendUsersAfter us uid req outcome now uid =
        some { u with credits_used := u.credits_used + 1,
                      credits_remaining := u.credits_remaining - 1 }) ∧
    (u.role = "reseller" → 1 ≤ u.available_credits →
      sendUsersAfter us uid req outcome now uid =
        some { u with used_credits := u.used_credits + 1,
                      available_credits := u.available_credits - 1 }) := by
  have hsm : send_message us uid req outcome now =
      create_message us
        { user_id := uid, channel := "whatsapp", mode := req.mode,
          sender_number := u.phone, receiver_number := req.receiver_number,
          message_type := req.message_type, template_name := req.template_name,
          message_body := req.message_body, credits_used := 1 } outcome now := by
    unfold send_message
    simp only [hu]
  refine ⟨?_, ?_, ?_⟩
  · intro m hm
    unfold sendResult at hm
    rw [hsm] at hm
    exact msgResult_credits_used (by unfold msgResult; exact hm)
  · intro hrole hbal
    have hd := debit_business_owner hrole (not_lt.mpr hbal)
    have hcm : create_message us
        { user_id := uid, channel := "whatsapp", mode := req.mode,
          sender_number := u.phone, receiver_number := req.receiver_number,
          message_type := req.message_type, template_name := req.template_name,
          message_body := req.message_body, credits_used := 1 } outcome now =
        Except.ok (updateUser us uid
          { u with credits_used := u.credits_used + 1,
                   credits_remaining := u.credits_remaining - 1 },
          sendMessageStep (pendingMessage
            { user_id := uid, channel := "whatsapp", mode := req.mode,
              sender_number := u.phone, receiver_number := req.receiver_number,
              message_type := req.message_type, template_name := req.template_name,
              message_body := req.message_body, credits_used := 1 })
            outcome now) := by
      unfold create_message
      simp only [hu, hd]
    unfold sendUsersAfter
    rw [hsm, hcm]
    unfold updateUser
    simp
  · intro hrole hbal
    have hd := debit_reseller hrole (not_lt.mpr hbal)
    have hcm : create_message us
        { user_id := uid, channel := "whatsapp", mode := req.mode,
          sender_number := u.phone, receiver_number := req.receiver_number,
          message_type := req.message_type, template_name := req.template_name,
          message_body := req.message_body, credits_used := 1 } outcome now =
        Except.ok (updateUser us uid
          { u with used_credits := u.used_credits + 1,
                   available_credits := u.available_credits - 1 },
          sendMessageStep (pendingMessage
            { user_id := uid, channel := "whatsapp", mode := req.mode,
              sender_number := u.phone, receiver_number := req.receiver_number,
              message_type := req.message_type, template_name := req.template_name,
              message_body := req.message_body, credits_used := 1 })
            outcome now) := by
      unfold create_message
      simp only [hu, hd]
    unfold sendUsersAfter
    rw [hsm, hcm]
    unfold updateUser
    simp

/-- Witness for C10: business owner b sends one message through the
single-send entry point and is debited exactly 1 credit. -/
theorem send_message_unit_cost_witness :
    sendUsersAfter exUsers "b" exSendReq exOkOutcome 7 "b" =
      some { bUser with credits_used := bUser.credits_used + 1,
                        credits_remaining := bUser.credits_remaining - 1 } :=
  (send_message_unit_cost exUsers "b" exSendReq exOkOutcome 7 bUser rfl).2.1
    rfl (by decide)

/-- Sample ResellerAnalytics row with every counter zero. -/
def exAnalytics : ResellerAnalytics :=
  { total_credits_purchased := 0, total_credits_distributed := 0,
    total_credits_used := 0, remaining_credits := 0, total_messages_sent := 0,
    total_messages_delivered := 0, total_messages_failed := 0 }

/-- Sample BusinessUserAnalytics row with every counter zero. -/
def exBUAnalytics : BusinessUserAnalytics :=
  { credits_allocated := 0, credits_used := 0, credits_remaining := 0,
    messages_sent := 0, messages_delivered := 0, messages_failed := 0 }

/-- C8.  Every percentage computation is total: it returns 0.0 on a
zero denominator and the exact ratio times 100 otherwise, on both
analytics row kinds. -/
theorem percentage_zero_denominator_guard :
    (∀ a : ResellerAnalytics, a.total_credits_distributed = 0 →
      a.calculate_credit_utilization = 0) ∧
    (∀ a : ResellerAnalytics, a.total_credits_distributed ≠ 0 →
      a.calculate_credit_utilization =
        ((a.total_credits_used : Rat) / (a.total_credits_distributed : Rat)) * 100) ∧
    (∀ a : ResellerAnalytics, a.total_messages_sent = 0 →
      a.calculate_delivery_rate = 0) ∧
    (∀ a : ResellerAnalytics, a.total_messages_sent ≠ 0 →
      a.calculate_delivery_rate =
        ((a.total_messages_delivered : Rat) / (a.total_messages_sent : Rat)) * 100) ∧
    (∀ b : BusinessUserAnalytics, b.credits_allocated = 0 →
      b.calculate_credit_utilization = 0) ∧
    (∀ b : BusinessUserAnalytics, b.credits_allocated ≠ 0 →
      b.calculate_credit_utilization =
        ((b.credits_used : Rat) / (b.credits_allocated : Rat)) * 100) ∧
    (∀ b : BusinessUserAnalytics, b.messages_sent = 0 →
      b.calculate_delivery_rate = 0) ∧
    (∀ b : BusinessUserAnalytics, b.messages_sent ≠ 0 →
      b.calculate_delivery_rate =
        ((b.messages_delivered : Rat) / (b.messages_sent : Rat)) * 100) := by
  refine ⟨fun a h => ?_, fun a h => ?_, fun a h => ?_, fun a h => ?_,
          fun b h => ?_, fun b h => ?_, fun b h => ?_, fun b h => ?_⟩
  · unfold ResellerAnalytics.calculate_credit_utilization
    rw [if_pos h]
  · unfold ResellerAnalytics.calculate_credit_utilization
    rw [if_neg h]
  · unfold ResellerAnalytics.calculate_delivery_rate
    rw [if_pos h]
  · unfold ResellerAnalytics.calculate_delivery_rate
    rw [if_neg h]
  · unfold BusinessUserAnalytics.calculate_credit_utilization
    rw [if_pos h]
  · unfold BusinessUserAnalytics.calculate_credit_utilization
    rw [if_neg h]
  · unfold BusinessUserAnalytics.calculate_delivery_rate
    rw [if_pos h]
  · unfold BusinessUserAnalytics.calculate_delivery_rate
    rw [if_neg h]

/-- Witness for C8: a business owner with zero allocated credits and a
reseller row with nothing distributed both report 0.0 utilization. -/
theorem percentage_zero_denominator_guard_witness :
    ResellerAnalytics.calculate_credit_utilization exAnalytics = 0 ∧
    BusinessUserAnalytics.calculate_credit_utilization exBUAnalytics = 0 :=
  ⟨percentage_zero_denominator_guard.1 exAnalytics rfl,
   percentage_zero_denominator_guard.2.2.2.2.1 exBUAnalytics rfl⟩

end WA
